import Mathlib

/-!
Shallow embedding of `src/garmin_client.py` from the
`jg-garmin-to-sheets` repository: the session authentication state
machine (`GarminClient.authenticate`, `GarminClient.submit_mfa_code`)
and the metrics aggregation pipeline (`GarminClient.get_metrics`).

Python dict payloads are embedded as structures with `Option` fields
(`none` models a missing key / `None` value / empty falsy sub-dict,
which the source treats identically through `.get` defaults and
truthiness tests).  Python numbers are embedded as `Int` where the
source only copies them and as `ℚ` where it divides.  Exceptions are
embedded as `Except String` with the raised message.
-/

namespace Garmin

/-! ## String helpers: Python's `in` substring test and `.lower()` -/

/-- Helper: `leadMatch n h` is true when list `n` is an initial segment of `h`
(helper for Python's substring containment operator). -/
def leadMatch : List Char → List Char → Bool
  | [], _ => true
  | _ :: _, [] => false
  | a :: as, b :: bs => a == b && leadMatch as bs

/-- Helper: `hasSub n h` is true when list `n` occurs contiguously inside `h`. -/
def hasSub (n : List Char) : List Char → Bool
  | [] => leadMatch n []
  | c :: rest => leadMatch n (c :: rest) || hasSub n rest

/-- Python's `pat in s` substring containment on strings. -/
def strContains (s pat : String) : Bool :=
  hasSub pat.data s.data

/-- Python's `str.lower()` (ASCII case folding suffices for the
type keys the source compares). -/
def strLower (s : String) : String :=
  String.mk (s.data.map Char.toLower)

/-- The apostrophe character, built by code point to keep string
literals free of quote characters. -/
def quoteChar : Char := Char.ofNat 39

/-- The message fragment of the `AttributeError` that
`authenticate` sniffs for: `'dict' object has no attribute 'expired'`. -/
def dictExpiredMarker : String :=
  String.mk ([quoteChar] ++ "dict".data ++ [quoteChar]
    ++ " object has no attribute ".data
    ++ [quoteChar] ++ "expired".data ++ [quoteChar])

/-! ## Payload shapes for the six sources (garmin_client.py lines 105-137) -/

/-- The `activity['activityType']` sub-dict. -/
structure ActivityType where
  typeKey : Option String
  parentTypeId : Option Int
  deriving Repr, DecidableEq

/-- One entry of the `get_activities_by_date` payload. -/
structure Activity where
  activityType : Option ActivityType
  distance : Option ℚ
  duration : Option ℚ
  deriving Repr, DecidableEq

/-- The `get_stats_and_body` payload (the keys the source reads). -/
structure Stats where
  weight : Option ℚ
  bodyFat : Option ℚ
  systolic : Option Int
  diastolic : Option Int
  deriving Repr, DecidableEq

/-- The `dailySleepDTO.sleepScores.overall` sub-dict. -/
structure OverallScore where
  value : Option ℚ
  deriving Repr, DecidableEq

/-- The `dailySleepDTO.sleepScores` sub-dict. -/
structure SleepScores where
  overall : Option OverallScore
  deriving Repr, DecidableEq

/-- The `dailySleepDTO` sub-dict of the sleep payload. -/
structure SleepDTO where
  sleepScores : Option SleepScores
  sleepTimeSeconds : Option ℚ
  sleepStartTimestampGMT : Option ℚ
  sleepEndTimestampGMT : Option ℚ
  deriving Repr, DecidableEq

/-- The `get_sleep_data` payload. -/
structure SleepData where
  dailySleepDTO : Option SleepDTO
  deriving Repr, DecidableEq

/-- The `get_user_summary` payload (the keys the source reads). -/
structure Summary where
  activeKilocalories : Option Int
  bmrKilocalories : Option Int
  moderateIntensityMinutes : Option Int
  vigorousIntensityMinutes : Option Int
  restingHeartRate : Option Int
  averageStressLevel : Option Int
  totalSteps : Option Int
  deriving Repr, DecidableEq

/-- One entry of `mostRecentVO2Max.generic` / `.cycling`. -/
structure VO2MaxEntry where
  vo2MaxValue : Option ℚ
  deriving Repr, DecidableEq

/-- The `mostRecentVO2Max` sub-dict. -/
structure VO2MaxOuter where
  generic : Option VO2MaxEntry
  cycling : Option VO2MaxEntry
  deriving Repr, DecidableEq

/-- One device entry of `latestTrainingStatusData`. -/
structure DeviceStatus where
  trainingStatusFeedbackPhrase : Option String
  deriving Repr, DecidableEq

/-- The `mostRecentTrainingStatus` sub-dict; the device mapping is
embedded as an association list in iteration order. -/
structure MostRecentTrainingStatus where
  latestTrainingStatusData : Option (List (String × DeviceStatus))
  deriving Repr, DecidableEq

/-- The `get_training_status` payload. -/
structure TrainingStatusData where
  mostRecentVO2Max : Option VO2MaxOuter
  mostRecentTrainingStatus : Option MostRecentTrainingStatus
  deriving Repr, DecidableEq

/-- The `hrvSummary` sub-dict of the HRV payload. -/
structure HrvSummary where
  lastNightAvg : Option Int
  status : Option String
  deriving Repr, DecidableEq

/-- The `get_hrv_data` payload. -/
structure HrvPayload where
  hrvSummary : Option HrvSummary
  deriving Repr, DecidableEq

/-- A calendar date, carried opaquely (only `isoformat` is used). -/
structure GDate where
  iso : String
  deriving Repr, DecidableEq

/-! ## The daily record

Modelled from the spec: the `GarminMetrics` dataclass lives in
`src/config.py`, which is not part of the given sources; the spec's
`DailyMetricsRecord` states a fixed set of optional fields where
"every field defaults to absent", so every non-date field is an
`Option` defaulting to `none`.  Field names follow the keyword
arguments of the two constructor calls in `get_metrics`. -/
structure GarminMetrics where
  date : GDate
  sleep_score : Option ℚ := none
  sleep_length : Option ℚ := none
  sleep_start : Option String := none
  sleep_end : Option String := none
  weight : Option ℚ := none
  body_fat : Option ℚ := none
  blood_pressure_systolic : Option Int := none
  blood_pressure_diastolic : Option Int := none
  active_calories : Option Int := none
  resting_calories : Option Int := none
  resting_heart_rate : Option Int := none
  average_stress : Option Int := none
  training_status : Option String := none
  vo2max_running : Option ℚ := none
  vo2max_cycling : Option ℚ := none
  intensity_minutes : Option Int := none
  all_activity_count : Option Nat := none
  running_activity_count : Option Nat := none
  running_distance : Option ℚ := none
  cycling_activity_count : Option Nat := none
  cycling_distance : Option ℚ := none
  strength_activity_count : Option Nat := none
  strength_duration : Option ℚ := none
  cardio_activity_count : Option Nat := none
  cardio_duration : Option ℚ := none
  tennis_activity_count : Option Nat := none
  tennis_activity_duration : Option ℚ := none
  overnight_hrv : Option Int := none
  hrv_status : Option String := none
  steps : Option Int := none
  deriving Repr, DecidableEq

/-! ## Activity classification (garmin_client.py lines 164-186) -/

/-- The six activity categories of the classifier. -/
inductive ActivityCategory where
  | running
  | cycling
  | strength
  | cardio
  | tennis
  | unclassified
  deriving Repr, DecidableEq

/-- Line 167: `activity.get('activityType', {}).get('typeKey', '').lower()`. -/
def typeKeyOf (a : Activity) : String :=
  strLower (((a.activityType.getD ⟨none, none⟩).typeKey).getD "")

/-- Line 168: `activity.get('activityType', {}).get('parentTypeId')`. -/
def parentTypeIdOf (a : Activity) : Option Int :=
  (a.activityType.getD ⟨none, none⟩).parentTypeId

/-- The if/elif classification chain of lines 170-184, extracted as a
function from one activity to its category. -/
def classifyActivity (a : Activity) : ActivityCategory :=
  let tk := typeKeyOf a
  let pt := parentTypeIdOf a
  if strContains tk "run" || pt == some 1 then .running
  else if strContains tk "virtual_ride" || strContains tk "cycling"
      || pt == some 2 then .cycling
  else if strContains tk "strength" then .strength
  else if strContains tk "cardio" then .cardio
  else if strContains tk "tennis" then .tennis
  else .unclassified

/-- The per-category accumulators of lines 153-162. -/
structure ActivityTotals where
  running_count : Nat := 0
  running_distance : ℚ := 0
  cycling_count : Nat := 0
  cycling_distance : ℚ := 0
  strength_count : Nat := 0
  strength_duration : ℚ := 0
  cardio_count : Nat := 0
  cardio_duration : ℚ := 0
  tennis_count : Nat := 0
  tennis_duration : ℚ := 0
  deriving Repr, DecidableEq

/-- One iteration of the activity loop: distance accumulates in km
(`distance / 1000`), duration in minutes (`duration / 60`),
unclassified activities touch no accumulator. -/
def processActivity (t : ActivityTotals) (a : Activity) : ActivityTotals :=
  match classifyActivity a with
  | .running =>
      { t with running_count := t.running_count + 1,
               running_distance := t.running_distance + (a.distance.getD 0) / 1000 }
  | .cycling =>
      { t with cycling_count := t.cycling_count + 1,
               cycling_distance := t.cycling_distance + (a.distance.getD 0) / 1000 }
  | .strength =>
      { t with strength_count := t.strength_count + 1,
               strength_duration := t.strength_duration + (a.duration.getD 0) / 60 }
  | .cardio =>
      { t with cardio_count := t.cardio_count + 1,
               cardio_duration := t.cardio_duration + (a.duration.getD 0) / 60 }
  | .tennis =>
      { t with tennis_count := t.tennis_count + 1,
               tennis_duration := t.tennis_duration + (a.duration.getD 0) / 60 }
  | .unclassified => t

/-- The whole activity loop (`for activity in activities`), with
`activities = None` leaving all accumulators at zero. -/
def processActivities (acts : Option (List Activity)) : ActivityTotals :=
  match acts with
  | some l => l.foldl processActivity {}
  | none => {}

/-! ## Per-field merge helpers (garmin_client.py lines 139-270) -/

/-- HRV processing (lines 140-150): yields
`(overnight_hrv_value, hrv_status_value)`. -/
def processHrv (p : Option HrvPayload) : Option Int × Option String :=
  match p with
  | some payload =>
      match payload.hrvSummary with
      | some s => (s.lastNightAvg, s.status)
      | none => (none, none)
  | none => (none, none)

/-- Line 209: `sleep_dto.get('sleepScores', {}).get('overall', {}).get('value')`. -/
def sleepScoreOf (dto : SleepDTO) : Option ℚ :=
  (dto.sleepScores.bind (·.overall)).bind (·.value)

/-- Lines 210-212: sleep length in hours, only when
`sleepTimeSeconds` is present and `> 0`. -/
def sleepLengthOf (dto : SleepDTO) : Option ℚ :=
  match dto.sleepTimeSeconds with
  | some s => if s > 0 then some (s / 3600) else none
  | none => none

/-- Lines 214-221: the `sleep_start` local is bound only when the
start timestamp is present and truthy (nonzero); `fmt` stands for
`datetime.fromtimestamp(x).strftime` with the host's local timezone,
which the embedding keeps abstract. -/
def sleepStartLocal (fmt : ℚ → String) (dto? : Option SleepDTO) : Option String :=
  match dto? with
  | some dto =>
      match dto.sleepStartTimestampGMT with
      | some v => if v ≠ 0 then some (fmt (v / 1000)) else none
      | none => none
  | none => none

/-- Lines 214-221: the `sleep_end` local, bound under the same
conditions for the end timestamp. -/
def sleepEndLocal (fmt : ℚ → String) (dto? : Option SleepDTO) : Option String :=
  match dto? with
  | some dto =>
      match dto.sleepEndTimestampGMT with
      | some v => if v ≠ 0 then some (fmt (v / 1000)) else none
      | none => none
  | none => none

/-- Line 229: `stats.get('weight', 0) / 1000 if stats.get('weight')
else None` — Python truthiness makes a zero weight absent. -/
def weightOf (stats : Stats) : Option ℚ :=
  match stats.weight with
  | some w => if w ≠ 0 then some (w / 1000) else none
  | none => none

/-- Line 240: `(moderate or 0) + 2 * (vigorous or 0)` — both terms
default to `0`, so the sum is always defined when the summary is. -/
def intensityMinutesOf (s : Summary) : Int :=
  s.moderateIntensityMinutes.getD 0 + 2 * s.vigorousIntensityMinutes.getD 0

/-- Lines 249-256: VO2max running, read through `mostRecentVO2Max.generic`. -/
def vo2maxRunningOf (ts : TrainingStatusData) : Option ℚ :=
  (ts.mostRecentVO2Max.bind (·.generic)).bind (·.vo2MaxValue)

/-- Lines 249-256: VO2max cycling, read through `mostRecentVO2Max.cycling`. -/
def vo2maxCyclingOf (ts : TrainingStatusData) : Option ℚ :=
  (ts.mostRecentVO2Max.bind (·.cycling)).bind (·.vo2MaxValue)

/-- Lines 258-268: the feedback phrase of the first device of
`latestTrainingStatusData`, in iteration order. -/
def trainingStatusPhraseOf (ts : TrainingStatusData) : Option String :=
  let tsd : List (String × DeviceStatus) :=
    match ts.mostRecentTrainingStatus with
    | some m => m.latestTrainingStatusData.getD []
    | none => []
  (tsd.head?.map Prod.snd).bind (·.trainingStatusFeedbackPhrase)

/-! ## The merge step and the pipeline -/

/-- The `NameError`/`UnboundLocalError` message raised when record
construction reads a sleep-time local that was never bound. -/
def nameErrorMsg : String :=
  "NameError: local sleep time variable referenced before assignment"

/-- The record built by the fallback constructor of lines 308-312:
only the date and the already-computed HRV locals; every other field
takes its (spec-modelled) absent default. -/
def fallbackRecord (d : GDate) (hv : Option Int) (hs : Option String) :
    GarminMetrics :=
  { date := d, overnight_hrv := hv, hrv_status := hs }

/-- The body of `get_metrics` after the gather (lines 139-304):
a pure function of the six (possibly absent) payloads.  The returned
`Except` carries the `NameError` raised at record construction when
the `sleep_start` / `sleep_end` locals were never bound (lines
276-277 reference them unconditionally, lines 217-221 bind them only
conditionally). -/
def mergeRecord (fmt : ℚ → String) (d : GDate)
    (stats : Option Stats) (sleepData : Option SleepData)
    (acts : Option (List Activity)) (summary : Option Summary)
    (trainingStatus : Option TrainingStatusData)
    (hrvVal : Option Int) (hrvStat : Option String) :
    Except String GarminMetrics :=
  let t := processActivities acts
  let dto? : Option SleepDTO := sleepData.bind (·.dailySleepDTO)
  let sleepStart? := sleepStartLocal fmt dto?
  let sleepEnd? := sleepEndLocal fmt dto?
  match sleepStart?, sleepEnd? with
  | some ss, some se =>
      .ok
        { date := d
          sleep_score := dto?.bind sleepScoreOf
          sleep_length := dto?.bind sleepLengthOf
          sleep_start := some ss
          sleep_end := some se
          weight := stats.bind weightOf
          body_fat := stats.bind (·.bodyFat)
          blood_pressure_systolic := stats.bind (·.systolic)
          blood_pressure_diastolic := stats.bind (·.diastolic)
          active_calories := summary.bind (·.activeKilocalories)
          resting_calories := summary.bind (·.bmrKilocalories)
          resting_heart_rate := summary.bind (·.restingHeartRate)
          average_stress := summary.bind (·.averageStressLevel)
          training_status := trainingStatus.bind trainingStatusPhraseOf
          vo2max_running := trainingStatus.bind vo2maxRunningOf
          vo2max_cycling := trainingStatus.bind vo2maxCyclingOf
          intensity_minutes := summary.map intensityMinutesOf
          all_activity_count := some ((acts.map List.length).getD 0)
          running_activity_count := some t.running_count
          running_distance := some t.running_distance
          cycling_activity_count := some t.cycling_count
          cycling_distance := some t.cycling_distance
          strength_activity_count := some t.strength_count
          strength_duration := some t.strength_duration
          cardio_activity_count := some t.cardio_count
          cardio_duration := some t.cardio_duration
          tennis_activity_count := some t.tennis_count
          tennis_activity_duration := some t.tennis_duration
          overnight_hrv := hrvVal
          hrv_status := hrvStat
          steps := summary.bind (·.totalSteps) }
  | _, _ => .error nameErrorMsg

/-- The outcome of one remote fetch: either the call raised
(`.error msg`) or it returned a payload, possibly `None` (`.ok`). -/
abbrev Fetch (α : Type) := Except String (Option α)

/-- The six fetch outcomes handed to one `get_metrics` call. -/
structure FetchOutcomes where
  stats : Fetch Stats
  sleep : Fetch SleepData
  activities : Fetch (List Activity)
  summary : Fetch Summary
  trainingStatus : Fetch TrainingStatusData
  hrv : Fetch HrvPayload

/-- Embeds `_fetch_hrv_data` (lines 84-94): the only fetch wrapped in its own
try/except, converting any raise into `None`. -/
def fetchHrvData (r : Fetch HrvPayload) : Option HrvPayload :=
  match r with
  | .ok p => p
  | .error _ => none

/-- The `asyncio.gather` of line 135 under its default
`return_exceptions=False`: if any of the five unguarded fetches
raises, the gather re-raises and the merge never runs. -/
def gatherFive (f : FetchOutcomes) :
    Except String (Option Stats × Option SleepData × Option (List Activity)
      × Option Summary × Option TrainingStatusData) :=
  match f.stats, f.sleep, f.activities, f.summary, f.trainingStatus with
  | .ok st, .ok sl, .ok ac, .ok su, .ok tr => .ok (st, sl, ac, su, tr)
  | .error m, _, _, _, _ => .error m
  | _, .error m, _, _, _ => .error m
  | _, _, .error m, _, _ => .error m
  | _, _, _, .error m, _ => .error m
  | _, _, _, _, .error m => .error m

/-- The try/except body of `get_metrics` (lines 103-312) for an
already-authenticated session: run the gather, process HRV, merge,
and on any raise fall back to the minimal record carrying the date
plus whichever HRV locals were already bound (`locals().get`). -/
def get_metrics_core (fmt : ℚ → String) (d : GDate) (f : FetchOutcomes) :
    GarminMetrics :=
  match gatherFive f with
  | .error _ => fallbackRecord d none none
  | .ok (stats, sleepData, acts, summary, trainingStatus) =>
      let hrvPayload := fetchHrvData f.hrv
      let (hrvVal, hrvStat) := processHrv hrvPayload
      match mergeRecord fmt d stats sleepData acts summary trainingStatus
          hrvVal hrvStat with
      | .ok r => r
      | .error _ => fallbackRecord d hrvVal hrvStat

/-! ## Authentication state machine (garmin_client.py lines 14-82, 314-366) -/

/-- The MFA ticket captured from `garth.oauth2_token`; the only part
of the dict the source inspects later is whether it holds a
`garth.Client` under the key `client` (line 331). -/
structure MfaTicket where
  hasGarthClient : Bool
  deriving Repr, DecidableEq

/-- The mutable fields of `GarminClient` touched by the state machine
(`__init__`, lines 15-19, plus the profile attributes set on
`self.client`). -/
structure ClientState where
  authenticated : Bool := false
  authFailed : Bool := false
  mfaTicket : Option MfaTicket := none
  displayName : Option String := none
  fullName : Option String := none
  unitSystem : Option String := none
  deriving Repr, DecidableEq

/-- What `self.client.login()` does in one `authenticate` call. -/
inductive LoginOutcome where
  | success
  | attrError (msg : String)
  | authError (msg : String)
  | otherError (msg : String)
  deriving Repr, DecidableEq

/-- The environment one `authenticate` call runs against:
the `GARMIN_TOKENS` secret, whether the token-load block (lines
33-43, `garth.loads` plus the profile reads) completes, the profile
attached to the hydrated garth client, the password-login outcome,
and the `garth.oauth2_token` pending state (`none` when the
attribute is absent or not a dict).  The profile's
`measurementSystem` entry is part of the environment even though the
token path never reads it. -/
structure AuthEnv where
  garminTokens : Option String
  hydrateOk : Bool
  profileDisplayName : Option String
  profileFullName : Option String
  profileMeasurementSystem : Option String
  loginResult : LoginOutcome
  oauth2TokenDict : Option MfaTicket
  deriving Repr, DecidableEq

/-- Truthiness of `os.getenv("GARMIN_TOKENS")`: present and non-empty. -/
def tokensTruthy (env : AuthEnv) : Bool :=
  match env.garminTokens with
  | some s => s ≠ ""
  | none => false

/-- Whether `login_wrapper` falls through to `self.client.login()`
(it does unless the token secret is truthy and the load block
completes, lines 29-48). -/
def usesLogin (env : AuthEnv) : Bool :=
  !(tokensTruthy env && env.hydrateOk)

/-- An exception propagating out of `authenticate`. -/
inductive PyError where
  | attrError (msg : String)
  | authError (msg : String)
  deriving Repr, DecidableEq

/-- How one `authenticate` call ends: normal return, an
`MFARequiredException` carrying the captured ticket, or a propagated
error. -/
inductive AuthResult where
  | ok
  | mfaRequired (t : MfaTicket)
  | raised (e : PyError)
  deriving Repr, DecidableEq

/-- Embeds `GarminClient.authenticate` (lines 21-82).  Returns the new
client state, the call's outcome, and whether `self.client.login()`
was invoked.  The two MFA-challenge shapes (an `AttributeError`
whose text contains `dictExpiredMarker`, and a
`GarminConnectAuthenticationError` whose text contains
`MFA-required` or `Authentication failed`) capture the pending
`oauth2_token` dict and raise `MFARequiredException`; when that
pending state is absent or not a dict the original error is
re-raised.  Any other exception is wrapped into a
`GarminConnectAuthenticationError`. -/
def authenticate (env : AuthEnv) (st : ClientState) :
    ClientState × AuthResult × Bool :=
  if tokensTruthy env && env.hydrateOk then
    -- token path: hydrate, then read displayName/fullName off the profile
    ({ st with authenticated := true, mfaTicket := none,
               displayName := env.profileDisplayName,
               fullName := env.profileFullName }, .ok, false)
  else
    match env.loginResult with
    | .success => ({ st with authenticated := true, mfaTicket := none }, .ok, true)
    | .attrError m =>
        if strContains m dictExpiredMarker then
          match env.oauth2TokenDict with
          | some t => ({ st with mfaTicket := some t }, .mfaRequired t, true)
          | none => (st, .raised (.attrError m), true)
        else (st, .raised (.attrError m), true)
    | .authError m =>
        if strContains m "MFA-required" || strContains m "Authentication failed" then
          match env.oauth2TokenDict with
          | some t => ({ st with mfaTicket := some t }, .mfaRequired t, true)
          | none => (st, .raised (.authError m), true)
        else (st, .raised (.authError m), true)
    | .otherError m =>
        (st, .raised (.authError
          ("An unexpected error occurred during authentication: " ++ m)), true)

/-! ## The get_metrics authentication gate (lines 98-101) -/

/-- What the gate at the top of `get_metrics` decides for a session. -/
inductive MetricsGate where
  | failFast
  | reauth
  | proceed
  deriving Repr, DecidableEq

/-- Lines 98-101: an unauthenticated session with the failure flag
set raises immediately; an unauthenticated session without it calls
`authenticate()` again; an authenticated session proceeds. -/
def metricsGate (st : ClientState) : MetricsGate :=
  if !st.authenticated then
    if st.authFailed then .failFast else .reauth
  else .proceed

/-- The message of the fail-fast raise at line 100. -/
def sessionUnusableMsg : String :=
  "Authentication has already failed. Cannot fetch metrics."

/-! ## MFA challenge resumption (lines 314-366) -/

/-- What `resume_login(ticket, code)` does. -/
inductive ResumeOutcome where
  | pair
  | notPair
  | raisesWith (msg : String)
  deriving Repr, DecidableEq

/-- The profile dict read after a successful resumption (line 339);
`none` models an empty/falsy profile. -/
structure ProfileData where
  displayName : Option String
  fullName : Option String
  measurementSystem : Option String
  deriving Repr, DecidableEq

/-- The environment one `submit_mfa_code` call runs against. -/
structure MfaEnv where
  resume : ResumeOutcome
  profileData : Option ProfileData
  profileFetchRaises : Bool
  deriving Repr, DecidableEq

/-- The message of the no-ticket raise at line 317. -/
def noTicketMsg : String :=
  "MFA ticket not available. Please authenticate first."

/-- The message of the shape-check raise at line 329. -/
def resumeShapeMsg : String :=
  "MFA token processing failed: Unexpected result from resume_login."

/-- The message of the missing-garth-client raise at line 351. -/
def criticalClientMsg : String :=
  "Critical error: Could not retrieve garth.Client instance."

/-- The distinguished rate-limit message raised at line 364. -/
def rateLimitMsg : String :=
  "Garmin is rate limiting your requests. Wait 5-10 mins."

/-- The generic failure message raised at line 366. -/
def mfaFailedMsg (m : String) : String :=
  "MFA failed: " ++ m

/-- The except clause of lines 357-366: clear `authenticated`, latch
`_auth_failed` (the ticket is NOT cleared), and re-raise with the
`429` distinction. -/
def mfaFailPath (st : ClientState) (m : String) :
    ClientState × Except String Bool :=
  ({ st with authenticated := false, authFailed := true },
   .error (if strContains m "429" then rateLimitMsg else mfaFailedMsg m))

/-- Lines 337-349: the non-fatal profile re-derivation after a
successful resumption. -/
def applyMfaProfile (env : MfaEnv) (st : ClientState) : ClientState :=
  if env.profileFetchRaises then st
  else
    match env.profileData with
    | some p =>
        { st with displayName := p.displayName, fullName := p.fullName,
                  unitSystem := p.measurementSystem }
    | none => st

/-- Embeds `GarminClient.submit_mfa_code` (lines 314-366).  The no-ticket
raise happens before the try block, so it neither latches the
failure flag nor goes through the 429 check. -/
def submit_mfa_code (env : MfaEnv) (st : ClientState) :
    ClientState × Except String Bool :=
  match st.mfaTicket with
  | none => (st, .error noTicketMsg)
  | some t =>
      match env.resume with
      | .raisesWith m => mfaFailPath st m
      | .notPair => mfaFailPath st resumeShapeMsg
      | .pair =>
          if t.hasGarthClient then
            let st1 := applyMfaProfile env st
            ({ st1 with authenticated := true, mfaTicket := none }, .ok true)
          else mfaFailPath st criticalClientMsg

/-! ## Concrete fixtures (valid payloads for the six sources) -/

/-- A target date. -/
def d0 : GDate := ⟨"2024-01-15"⟩

/-- A trivial stand-in for the timestamp formatter. -/
def fmt0 : ℚ → String := fun _ => ""

/-- Valid stats-and-body fixture (weight in grams). -/
def fixtureStats : Stats :=
  { weight := some 70000, bodyFat := some 20,
    systolic := some 120, diastolic := some 80 }

/-- Valid daily-sleep sub-object, with both timestamps present. -/
def fixtureSleepDTO : SleepDTO :=
  { sleepScores := some ⟨some ⟨some 85⟩⟩
    sleepTimeSeconds := some 28800
    sleepStartTimestampGMT := some 1705276800000
    sleepEndTimestampGMT := some 1705305600000 }

/-- Valid sleep fixture. -/
def fixtureSleep : SleepData := ⟨some fixtureSleepDTO⟩

/-- A running activity with a 5000 m distance. -/
def fixtureRun : Activity :=
  { activityType := some ⟨some "running", some 1⟩,
    distance := some 5000, duration := some 1800 }

/-- Valid activities fixture. -/
def fixtureActivities : List Activity := [fixtureRun]

/-- Valid daily summary fixture. -/
def fixtureSummary : Summary :=
  { activeKilocalories := some 500, bmrKilocalories := some 1500,
    moderateIntensityMinutes := some 30, vigorousIntensityMinutes := some 10,
    restingHeartRate := some 50, averageStressLevel := some 25,
    totalSteps := some 10000 }

/-- Valid training status fixture. -/
def fixtureTraining : TrainingStatusData :=
  { mostRecentVO2Max := some ⟨some ⟨some 50⟩, some ⟨some 48⟩⟩
    mostRecentTrainingStatus := some ⟨some [("device1", ⟨some "PRODUCTIVE"⟩)]⟩ }

/-- Valid HRV fixture. -/
def fixtureHrv : HrvPayload := ⟨some ⟨some 55, some "BALANCED"⟩⟩

/-- All six fetches succeed with the valid fixtures. -/
def okFetches : FetchOutcomes :=
  { stats := .ok (some fixtureStats)
    sleep := .ok (some fixtureSleep)
    activities := .ok (some fixtureActivities)
    summary := .ok (some fixtureSummary)
    trainingStatus := .ok (some fixtureTraining)
    hrv := .ok (some fixtureHrv) }

/-- The record `get_metrics` builds from the six fixtures, as a
function of the timestamp formatter. -/
def expectedFullRecord (fmt : ℚ → String) (d : GDate) : GarminMetrics :=
  { date := d
    sleep_score := some 85
    sleep_length := some 8
    sleep_start := some (fmt 1705276800)
    sleep_end := some (fmt 1705305600)
    weight := some 70
    body_fat := some 20
    blood_pressure_systolic := some 120
    blood_pressure_diastolic := some 80
    active_calories := some 500
    resting_calories := some 1500
    resting_heart_rate := some 50
    average_stress := some 25
    training_status := some "PRODUCTIVE"
    vo2max_running := some 50
    vo2max_cycling := some 48
    intensity_minutes := some 50
    all_activity_count := some 1
    running_activity_count := some 1
    running_distance := some 5
    cycling_activity_count := some 0
    cycling_distance := some 0
    strength_activity_count := some 0
    strength_duration := some 0
    cardio_activity_count := some 0
    cardio_duration := some 0
    tennis_activity_count := some 0
    tennis_activity_duration := some 0
    overnight_hrv := some 55
    hrv_status := some "BALANCED"
    steps := some 10000 }

/-- Expected record when only the stats source is absent. -/
def expectedNoStats (fmt : ℚ → String) (d : GDate) : GarminMetrics :=
  { expectedFullRecord fmt d with
    weight := none, body_fat := none,
    blood_pressure_systolic := none, blood_pressure_diastolic := none }

/-- Expected record when only the daily summary source is absent. -/
def expectedNoSummary (fmt : ℚ → String) (d : GDate) : GarminMetrics :=
  { expectedFullRecord fmt d with
    active_calories := none, resting_calories := none,
    resting_heart_rate := none, average_stress := none,
    intensity_minutes := none, steps := none }

/-- Expected record when only the training-status source is absent. -/
def expectedNoTraining (fmt : ℚ → String) (d : GDate) : GarminMetrics :=
  { expectedFullRecord fmt d with
    training_status := none, vo2max_running := none, vo2max_cycling := none }

/-- Expected record when only the HRV source is absent or failing. -/
def expectedNoHrv (fmt : ℚ → String) (d : GDate) : GarminMetrics :=
  { expectedFullRecord fmt d with
    overnight_hrv := none, hrv_status := none }

/-- Expected record when only the activities source is absent: the
overall count and every per-category total is a genuine zero, not an
absent value. -/
def expectedNoActivities (fmt : ℚ → String) (d : GDate) : GarminMetrics :=
  { expectedFullRecord fmt d with
    all_activity_count := some 0
    running_activity_count := some 0, running_distance := some 0
    cycling_activity_count := some 0, cycling_distance := some 0
    strength_activity_count := some 0, strength_duration := some 0
    cardio_activity_count := some 0, cardio_duration := some 0
    tennis_activity_count := some 0, tennis_activity_duration := some 0 }

/-- A daily-sleep sub-object that came back without either sleep
timestamp (otherwise valid). -/
def partialSleepDTO : SleepDTO :=
  { sleepScores := some ⟨some ⟨some 85⟩⟩
    sleepTimeSeconds := some 28800
    sleepStartTimestampGMT := none
    sleepEndTimestampGMT := none }

/-- Sleep payload wrapping `partialSleepDTO`. -/
def partialSleep : SleepData := ⟨some partialSleepDTO⟩

/-- A daily-sleep sub-object missing only the end timestamp. -/
def endlessSleepDTO : SleepDTO :=
  { sleepScores := some ⟨some ⟨some 85⟩⟩
    sleepTimeSeconds := some 28800
    sleepStartTimestampGMT := some 1705276800000
    sleepEndTimestampGMT := none }

/-- All six fetches succeed but the sleep timestamps are missing. -/
def partialSleepFetches : FetchOutcomes :=
  { okFetches with sleep := .ok (some partialSleep) }

/-- Fixture with `typeKey = "running_strength_combo"` and no parent type id: matches
both the `run` and the `strength` substring rules. -/
def comboActivity : Activity :=
  { activityType := some ⟨some "running_strength_combo", none⟩,
    distance := some 5000, duration := some 1800 }

/-- An activity matching none of the five keyword rules. -/
def unclassActivity : Activity :=
  { activityType := some ⟨some "yoga", none⟩,
    distance := some 1000, duration := some 600 }

/-- A stats payload whose `weight` key is present but zero. -/
def zeroWeightStats : Stats :=
  { weight := some 0, bodyFat := none, systolic := none, diastolic := none }

/-- A live MFA ticket holding the garth client. -/
def liveTicket : MfaTicket := ⟨true⟩

/-- Environment for the persisted-token hydration path. -/
def envTok : AuthEnv :=
  { garminTokens := some "SECRETBLOB", hydrateOk := true,
    profileDisplayName := some "jsmith", profileFullName := some "J Smith",
    profileMeasurementSystem := some "metric",
    loginResult := .success, oauth2TokenDict := none }

/-- Environment where password login raises the shape-mismatch
`AttributeError` and the pending token dict is available. -/
def envAttrMfa : AuthEnv :=
  { garminTokens := none, hydrateOk := false,
    profileDisplayName := none, profileFullName := none,
    profileMeasurementSystem := none,
    loginResult := .attrError dictExpiredMarker,
    oauth2TokenDict := some liveTicket }

/-- Environment where password login raises an unrelated error. -/
def envLoginBoom : AuthEnv :=
  { garminTokens := none, hydrateOk := false,
    profileDisplayName := none, profileFullName := none,
    profileMeasurementSystem := none,
    loginResult := .otherError "boom", oauth2TokenDict := none }

/-- Resumption environment where `resume_login` raises with an
invalid-code message. -/
def envBadCode : MfaEnv :=
  { resume := .raisesWith "INVALID", profileData := none,
    profileFetchRaises := false }

/-- Resumption environment where `resume_login` succeeds. -/
def envGoodCode : MfaEnv :=
  { resume := .pair,
    profileData := some ⟨some "jsmith", some "J Smith", some "metric"⟩,
    profileFetchRaises := false }

/-- Resumption environment where `resume_login` raises a rate-limit
message. -/
def envRateLimited : MfaEnv :=
  { resume := .raisesWith "HTTP Error 429: Too Many Requests",
    profileData := none, profileFetchRaises := false }

/-- A session holding a live challenge ticket. -/
def stWithTicket : ClientState := { mfaTicket := some liveTicket }

end Garmin

namespace Garmin

/-! ## Shared helper lemmas -/

/-- The `MFA failed:` wrapper can never collide with the
no-ticket-pending message (their fifth characters differ). -/
theorem mfaFailedMsg_ne_noTicketMsg (m : String) :
    mfaFailedMsg m ≠ noTicketMsg := by
  intro h
  have h4 : (mfaFailedMsg m).data.get? 4 = noTicketMsg.data.get? 4 :=
    congrArg (fun s => s.data.get? 4) h
  have e1 : (mfaFailedMsg m).data.get? 4 = some 'f' := rfl
  rw [e1] at h4
  exact absurd h4 (by decide)

/-- The `MFA failed:` wrapper can never collide with the rate-limit
message (their first characters differ). -/
theorem mfaFailedMsg_ne_rateLimitMsg (m : String) :
    mfaFailedMsg m ≠ rateLimitMsg := by
  intro h
  have h0 : (mfaFailedMsg m).data.get? 0 = rateLimitMsg.data.get? 0 :=
    congrArg (fun s => s.data.get? 0) h
  have e1 : (mfaFailedMsg m).data.get? 0 = some 'M' := rfl
  rw [e1] at h0
  exact absurd h0 (by decide)

end Garmin

namespace Garmin

/-- C7: activity classification is a total deterministic function
into the six categories `{running, cycling, strength, cardio,
tennis, unclassified}`, evaluated in rule order on the lowercase
type-key with parent-type-id fallback, first match winning: a
type-key containing both `run` and `strength` (fixture
`running_strength_combo`) classifies as running; unclassified
activities touch no per-category accumulator but still count in the
overall activity count. -/
theorem classify_total_ordered_first_match :
    (∀ a : Activity,
      classifyActivity a = .running ∨ classifyActivity a = .cycling
      ∨ classifyActivity a = .strength ∨ classifyActivity a = .cardio
      ∨ classifyActivity a = .tennis ∨ classifyActivity a = .unclassified)
    ∧ (∀ a : Activity, strContains (typeKeyOf a) "run" = true →
        classifyActivity a = .running)
    ∧ classifyActivity comboActivity = .running
    ∧ strContains (typeKeyOf comboActivity) "strength" = true
    ∧ (∀ (t : ActivityTotals) (a : Activity),
        classifyActivity a = .unclassified → processActivity t a = t)
    ∧ (∀ (fmt : ℚ → String) (d : GDate),
        get_metrics_core fmt d
            { okFetches with activities := .ok (some [fixtureRun, unclassActivity]) }
          = { expectedFullRecord fmt d with all_activity_count := some 2 }) := by
  refine ⟨?_, ?_, by decide, by decide, ?_, ?_⟩
  · intro a
    cases h : classifyActivity a <;> simp [h]
  · intro a h
    simp [classifyActivity, h]
  · intro t a h
    simp [processActivity, h]
  · intro fmt d
    norm_num +decide [get_metrics_core, gatherFive, okFetches, fetchHrvData, processHrv,
      fixtureHrv, mergeRecord, processActivities, processActivity, classifyActivity,
      typeKeyOf, parentTypeIdOf, fixtureRun, unclassActivity, sleepStartLocal,
      sleepEndLocal, fixtureSleep, fixtureSleepDTO, sleepScoreOf, sleepLengthOf,
      weightOf, fixtureStats, intensityMinutesOf, fixtureSummary, vo2maxRunningOf,
      vo2maxCyclingOf, trainingStatusPhraseOf, fixtureTraining,
      expectedFullRecord, strContains, strLower, hasSub, leadMatch,
      GarminMetrics.mk.injEq]

/-- C7 witness: the general conjuncts applied at the combo fixture
and at a concrete unclassified activity. -/
theorem classify_total_ordered_first_match_witness :
    classifyActivity comboActivity = .running
    ∧ processActivity {} unclassActivity = {} := by
  refine ⟨(classify_total_ordered_first_match.2.1) comboActivity (by decide), ?_⟩
  exact (classify_total_ordered_first_match.2.2.2.2.1) {} unclassActivity (by decide)

end Garmin

namespace Garmin

/-- C8 counterexample: a stats payload whose `weight` key is present
with value `0` yields an absent weight, not `0 / 1000 = 0.0`, because
line 229 tests Python truthiness of the value, not key presence. -/
theorem weight_zero_absent_cex :
    zeroWeightStats.weight = some 0
    ∧ weightOf zeroWeightStats = none
    ∧ weightOf zeroWeightStats ≠ some (0 / 1000) := by
  refine ⟨rfl, by norm_num [weightOf, zeroWeightStats], ?_⟩
  norm_num [weightOf, zeroWeightStats]
  decide

/-- C8 amended: weight = grams / 1000 when the weight field is
present and nonzero (truthy), absent when the field is missing or
zero (fixture 70000 → 70.0); activity distance accumulates meters /
1000; sleep length = seconds / 3600 only when seconds > 0, so 0
yields absent; intensity minutes is always populated when the
summary payload is present, as moderate + 2 × vigorous with each
term defaulting to 0. -/
theorem numeric_conversions_exact :
    weightOf fixtureStats = some 70
    ∧ (∀ (s : Stats) (w : ℚ), s.weight = some w → w ≠ 0 →
        weightOf s = some (w / 1000))
    ∧ (∀ s : Stats, s.weight = none ∨ s.weight = some 0 → weightOf s = none)
    ∧ (processActivities (some [fixtureRun])).running_distance = 5
    ∧ (∀ (dto : SleepDTO) (sec : ℚ), dto.sleepTimeSeconds = some sec →
        sec > 0 → sleepLengthOf dto = some (sec / 3600))
    ∧ (∀ dto : SleepDTO, dto.sleepTimeSeconds = some 0 → sleepLengthOf dto = none)
    ∧ intensityMinutesOf fixtureSummary = 50
    ∧ intensityMinutesOf ⟨none, none, none, none, none, none, none⟩ = 0
    ∧ (∀ (fmt : ℚ → String) (d : GDate) (os : Option Stats)
        (osl : Option SleepData) (oa : Option (List Activity)) (su : Summary)
        (ot : Option TrainingStatusData) (hv : Option Int) (hs : Option String)
        (r : GarminMetrics),
        mergeRecord fmt d os osl oa (some su) ot hv hs = .ok r →
        r.intensity_minutes
          = some (su.moderateIntensityMinutes.getD 0
              + 2 * su.vigorousIntensityMinutes.getD 0)) := by
  refine ⟨by norm_num [weightOf, fixtureStats], ?_, ?_, ?_, ?_, ?_, ?_, rfl, ?_⟩
  · intro s w hw hnz
    simp [weightOf, hw, hnz]
  · intro s hs
    rcases hs with h | h <;> simp [weightOf, h]
  · norm_num +decide [processActivities, processActivity, classifyActivity,
      typeKeyOf, parentTypeIdOf, fixtureRun, strContains, strLower, hasSub,
      leadMatch]
  · intro dto sec hsec hpos
    simp [sleepLengthOf, hsec, hpos]
  · intro dto h
    simp [sleepLengthOf, h]
  · norm_num [intensityMinutesOf, fixtureSummary]
  · intro fmt d os osl oa su ot hv hs r h
    unfold mergeRecord at h
    dsimp only at h
    split at h
    · cases h
      simp [intensityMinutesOf]
    · cases h

/-- C8 witness: the conditional conjuncts applied at concrete
inputs. -/
theorem numeric_conversions_exact_witness :
    weightOf ⟨some 68000, none, none, none⟩ = some 68
    ∧ sleepLengthOf partialSleepDTO = some 8 := by
  constructor
  · have h := (numeric_conversions_exact.2.1) ⟨some 68000, none, none, none⟩
      68000 rfl (by norm_num)
    rw [h]; norm_num
  · have h := (numeric_conversions_exact.2.2.2.2.1) partialSleepDTO 28800
      (by rfl) (by norm_num)
    rw [h]; norm_num

end Garmin

namespace Garmin

/-- C1 counterexample: single-source failures are not all absorbed
locally.  (i) If the stats fetch raises, the default `asyncio.gather`
join re-raises, the outer handler fires, and the returned record is
the minimal fallback — the sleep score fetched successfully by the
sleep source is absent, not populated.  (ii) If the sleep fetch
"fails" by returning no payload, the unbound `sleep_start` /
`sleep_end` locals make record construction raise, so the weight
fetched successfully by the stats source is absent as well. -/
theorem single_fetch_failure_not_absorbed_cex :
    get_metrics_core fmt0 d0 { okFetches with stats := .error "HTTP 500" }
      = fallbackRecord d0 none none
    ∧ (fallbackRecord d0 none none).sleep_score = none
    ∧ (get_metrics_core fmt0 d0 { okFetches with sleep := .ok none }).weight
      = none
    ∧ fixtureStats.weight = some 70000 := by
  refine ⟨?_, rfl, ?_, rfl⟩
  · norm_num [get_metrics_core, gatherFive, okFetches, fallbackRecord]
  · norm_num +decide [get_metrics_core, gatherFive, okFetches, fetchHrvData,
      processHrv, fixtureHrv, mergeRecord, sleepStartLocal, sleepEndLocal,
      fallbackRecord]

/-- C1 amended: with all six fixtures valid, a single source that
fails by returning an absent payload is absorbed locally for the
stats, summary, training-status and activities sources (the other
five fields stay populated; the activity totals become genuine
zeros, not absent values), and for the HRV source even a raising
failure is absorbed (its `_fetch_hrv_data` wrapper catches it); but
an absent sleep payload leaves the sleep-time locals unbound, so
record construction raises and only the minimal fallback record
(date + HRV) is returned, and a raising failure in any of the five
unguarded fetches likewise yields the minimal fallback (with the
HRV locals not yet bound). -/
theorem single_fetch_failure_amended (fmt : ℚ → String) (d : GDate) :
    get_metrics_core fmt d { okFetches with stats := .ok none }
      = expectedNoStats fmt d
    ∧ get_metrics_core fmt d { okFetches with summary := .ok none }
      = expectedNoSummary fmt d
    ∧ get_metrics_core fmt d { okFetches with trainingStatus := .ok none }
      = expectedNoTraining fmt d
    ∧ get_metrics_core fmt d { okFetches with hrv := .ok none }
      = expectedNoHrv fmt d
    ∧ get_metrics_core fmt d { okFetches with hrv := .error "HTTP 500" }
      = expectedNoHrv fmt d
    ∧ get_metrics_core fmt d { okFetches with activities := .ok none }
      = expectedNoActivities fmt d
    ∧ get_metrics_core fmt d { okFetches with sleep := .ok none }
      = fallbackRecord d (some 55) (some "BALANCED")
    ∧ get_metrics_core fmt d { okFetches with stats := .error "HTTP 500" }
      = fallbackRecord d none none := by
  refine ⟨?_, ?_, ?_, ?_, ?_, ?_, ?_, ?_⟩ <;>
    norm_num +decide [get_metrics_core, gatherFive, okFetches, fetchHrvData,
      processHrv, fixtureHrv, mergeRecord, processActivities, processActivity,
      classifyActivity, typeKeyOf, parentTypeIdOf, fixtureActivities, fixtureRun,
      sleepStartLocal, sleepEndLocal, fixtureSleep, fixtureSleepDTO, sleepScoreOf,
      sleepLengthOf, weightOf, fixtureStats, intensityMinutesOf, fixtureSummary,
      vo2maxRunningOf, vo2maxCyclingOf, trainingStatusPhraseOf, fixtureTraining,
      fallbackRecord, expectedFullRecord, expectedNoStats, expectedNoSummary,
      expectedNoTraining, expectedNoHrv, expectedNoActivities, strContains,
      strLower, hasSub, leadMatch, GarminMetrics.mk.injEq]

end Garmin

namespace Garmin

/-- C3: when all six fetches succeed but the daily-sleep sub-object
is missing, or lacks the start or end timestamp, the `sleep_start` /
`sleep_end` locals are never bound, record construction raises, the
handler fires, and `get_metrics` returns only the minimal fallback
record: the date plus the HRV fields computed before the raise —
every other successfully fetched field is discarded. -/
theorem missing_sleep_timestamps_minimal_record (fmt : ℚ → String) (d : GDate)
    (os : Option Stats) (sd : SleepData) (oa : Option (List Activity))
    (osu : Option Summary) (ot : Option TrainingStatusData)
    (oh : Option HrvPayload)
    (hsd : sd.dailySleepDTO = none
      ∨ ∃ dto, sd.dailySleepDTO = some dto
          ∧ (dto.sleepStartTimestampGMT = none
            ∨ dto.sleepEndTimestampGMT = none)) :
    get_metrics_core fmt d ⟨.ok os, .ok (some sd), .ok oa, .ok osu, .ok ot, .ok oh⟩
      = fallbackRecord d (processHrv oh).1 (processHrv oh).2 := by
  have hmerge : mergeRecord fmt d os (some sd) oa osu ot
      (processHrv oh).1 (processHrv oh).2 = .error nameErrorMsg := by
    unfold mergeRecord
    dsimp only
    rcases hsd with h | ⟨dto, hdto, h | h⟩
    · simp [sleepStartLocal, h]
    · simp only [Option.some_bind, hdto]
      simp [sleepStartLocal, h]
    · simp only [Option.some_bind, hdto]
      cases hs : sleepStartLocal fmt (some dto) with
      | none => simp [hs]
      | some ss => simp [hs, sleepEndLocal, h]
  unfold get_metrics_core gatherFive fetchHrvData
  dsimp only
  rw [hmerge]

/-- C3 witness: concrete instance where the end timestamp is
missing. -/
theorem missing_sleep_timestamps_minimal_record_witness :
    get_metrics_core fmt0 d0
      ⟨.ok (some fixtureStats), .ok (some ⟨some endlessSleepDTO⟩),
       .ok (some fixtureActivities), .ok (some fixtureSummary),
       .ok (some fixtureTraining), .ok (some fixtureHrv)⟩
      = fallbackRecord d0 (some 55) (some "BALANCED") := by
  have h := missing_sleep_timestamps_minimal_record fmt0 d0
    (some fixtureStats) ⟨some endlessSleepDTO⟩ (some fixtureActivities)
    (some fixtureSummary) (some fixtureTraining) (some fixtureHrv)
    (Or.inr ⟨endlessSleepDTO, rfl, Or.inr rfl⟩)
  rw [h]
  rfl

/-- C10: the merge step does raise for partial source data — all six
fetches succeed, the sleep payload merely lacks its timestamps, and
the merge ends in the unbound-local error; get_metrics then returns
the minimal date-plus-HRV record, discarding the fetched weight.
(The fallback half of the claim holds; the never-raises half is the
code bug.) -/
theorem merge_raises_on_partial_sleep_bug :
    mergeRecord fmt0 d0 (some fixtureStats) (some partialSleep)
      (some fixtureActivities) (some fixtureSummary) (some fixtureTraining)
      (some 55) (some "BALANCED") = .error nameErrorMsg
    ∧ get_metrics_core fmt0 d0 partialSleepFetches
      = fallbackRecord d0 (some 55) (some "BALANCED")
    ∧ (fallbackRecord d0 (some 55) (some "BALANCED")).weight = none
    ∧ fixtureStats.weight = some 70000 := by
  refine ⟨?_, ?_, rfl, rfl⟩
  · norm_num [mergeRecord, sleepStartLocal, sleepEndLocal, partialSleep,
      partialSleepDTO]
  · norm_num [get_metrics_core, gatherFive, partialSleepFetches, okFetches,
      fetchHrvData, processHrv, fixtureHrv, mergeRecord, sleepStartLocal,
      sleepEndLocal, partialSleep, partialSleepDTO, fallbackRecord]

end Garmin

namespace Garmin

/-- C2 counterexample: on the persisted-token hydration path the
source caches only `display_name` and `full_name` (lines 38-39); the
unit system available on the hydrated profile is never cached, so
the session's `unitSystem` stays absent. -/
theorem token_hydration_no_unit_system_cex :
    envTok.profileMeasurementSystem = some "metric"
    ∧ (authenticate envTok {}).1.unitSystem = none
    ∧ (authenticate envTok {}).2.1 = .ok
    ∧ (authenticate envTok {}).2.2 = false := by
  decide

/-- C2 amended: hydration from a valid persisted token blob ends
authenticated without invoking password login, re-fetches and caches
the display profile's name fields (display name and full name, so
the display name is non-empty whenever the hydrated profile's is) —
but it does not cache the unit system, which stays whatever it was. -/
theorem token_hydration_authenticates (env : AuthEnv) (st : ClientState)
    (h1 : tokensTruthy env = true) (h2 : env.hydrateOk = true) :
    authenticate env st
      = ({ st with
            authenticated := true
            mfaTicket := none
            displayName := env.profileDisplayName
            fullName := env.profileFullName }, .ok, false)
    ∧ (authenticate env st).1.unitSystem = st.unitSystem
    ∧ ∀ nm : String, env.profileDisplayName = some nm →
        (authenticate env st).1.displayName = some nm := by
  have hcond : (tokensTruthy env && env.hydrateOk) = true := by
    rw [h1, h2]; rfl
  refine ⟨?_, ?_, ?_⟩
  · simp [authenticate, hcond]
  · simp [authenticate, hcond]
  · intro nm hnm
    simp [authenticate, hcond, hnm]

/-- C2 witness: the amended theorem at the concrete token
environment. -/
theorem token_hydration_authenticates_witness :
    authenticate envTok {}
      = ({ authenticated := true, mfaTicket := none,
           displayName := some "jsmith", fullName := some "J Smith" }, .ok, false)
    ∧ (authenticate envTok {}).1.displayName = some "jsmith" := by
  have h := token_hydration_authenticates envTok {} (by decide) (by decide)
  exact ⟨h.1, h.2.2 "jsmith" rfl⟩

/-- C5: during `authenticate`, both underlying failure shapes — the
shape-mismatch `AttributeError` containing the dict-expired marker,
and the explicit authentication-failed / MFA-required client error —
transition to challenge-pending: the `ChallengeTicket` is captured
from the client's pending `oauth2_token` state and
`MFARequiredException` is raised; when that pending state is absent
or not a dict, the original error propagates as a hard failure with
no ticket captured and no retry. -/
theorem challenge_detection_two_shapes (env : AuthEnv) (st : ClientState)
    (m : String) (t : MfaTicket) (hl : usesLogin env = true) :
    (env.loginResult = .attrError m →
      strContains m dictExpiredMarker = true →
      (env.oauth2TokenDict = some t →
        authenticate env st = ({ st with mfaTicket := some t }, .mfaRequired t, true))
      ∧ (env.oauth2TokenDict = none →
        authenticate env st = (st, .raised (.attrError m), true)))
    ∧ (env.loginResult = .authError m →
      (strContains m "MFA-required" || strContains m "Authentication failed") = true →
      (env.oauth2TokenDict = some t →
        authenticate env st = ({ st with mfaTicket := some t }, .mfaRequired t, true))
      ∧ (env.oauth2TokenDict = none →
        authenticate env st = (st, .raised (.authError m), true))) := by
  have hcond : (tokensTruthy env && env.hydrateOk) = false := by
    have := hl
    unfold usesLogin at this
    cases h : tokensTruthy env && env.hydrateOk
    · rfl
    · rw [h] at this; cases this
  constructor
  · intro hres hmark
    constructor
    · intro hdict
      simp [authenticate, hcond, hres, hmark, hdict]
    · intro hdict
      simp [authenticate, hcond, hres, hmark, hdict]
  · intro hres hmark
    constructor
    · intro hdict
      simp [authenticate, hcond, hres, hmark, hdict]
    · intro hdict
      simp [authenticate, hcond, hres, hmark, hdict]

/-- C5 witness: the `AttributeError` shape at the concrete
environment, with the pending dict available. -/
theorem challenge_detection_two_shapes_witness :
    authenticate envAttrMfa {}
      = ({ mfaTicket := some liveTicket }, .mfaRequired liveTicket, true) := by
  have h := challenge_detection_two_shapes envAttrMfa {} dictExpiredMarker
    liveTicket (by decide)
  exact (h.1 rfl (by decide)).1 rfl

/-- C6 counterexample: a password-login failure during
`authenticate` (Authenticating state) does not latch the failure
flag, so the next `get_metrics` call re-attempts authentication
instead of failing fast. -/
theorem auth_failure_not_latched_cex :
    (authenticate envLoginBoom {}).2.1
      = .raised (.authError
          ("An unexpected error occurred during authentication: " ++ "boom"))
    ∧ metricsGate (authenticate envLoginBoom {}).1 = .reauth
    ∧ metricsGate (authenticate envLoginBoom {}).1 ≠ .failFast := by
  decide

/-- C6 amended: only challenge-submission failures latch.  A session
with the failure flag set fails fast at the `get_metrics` gate
without re-attempting authentication; any failing
`submit_mfa_code` call on a live ticket sets that flag (and clears
`authenticated`), so subsequent `get_metrics` calls fail fast; but
`authenticate` itself never changes the flag, so a session that
failed password login is re-authenticated by the next
`get_metrics` call. -/
theorem failed_latch_scope (env : MfaEnv) (aenv : AuthEnv) (st : ClientState) :
    (st.authenticated = false → st.authFailed = true →
      metricsGate st = .failFast)
    ∧ (∀ (t : MfaTicket) (m : String), st.mfaTicket = some t →
        (submit_mfa_code env st).2 = .error m →
        (submit_mfa_code env st).1.authFailed = true
        ∧ (submit_mfa_code env st).1.authenticated = false
        ∧ metricsGate (submit_mfa_code env st).1 = .failFast)
    ∧ (authenticate aenv st).1.authFailed = st.authFailed := by
  refine ⟨?_, ?_, ?_⟩
  · intro h1 h2
    simp [metricsGate, h1, h2]
  · intro t m ht herr
    cases hres : env.resume with
    | raisesWith rm =>
        simp only [submit_mfa_code, ht, hres, mfaFailPath]
        simp [metricsGate]
    | notPair =>
        simp only [submit_mfa_code, ht, hres, mfaFailPath]
        simp [metricsGate]
    | pair =>
        cases hcl : t.hasGarthClient with
        | true =>
            rw [submit_mfa_code, ht, hres] at herr
            simp [hcl] at herr
        | false =>
            simp only [submit_mfa_code, ht, hres, hcl, mfaFailPath]
            simp [metricsGate]
  · unfold authenticate
    split
    · rfl
    · cases aenv.loginResult <;> dsimp only <;>
        first
          | rfl
          | (split
             · cases h : aenv.oauth2TokenDict <;> simp
             · rfl)

/-- C6 witness: a failed code submission on a live ticket latches,
and the latched session fails fast at the gate. -/
theorem failed_latch_scope_witness :
    (submit_mfa_code envBadCode stWithTicket).1.authFailed = true
    ∧ metricsGate (submit_mfa_code envBadCode stWithTicket).1 = .failFast := by
  have h := (failed_latch_scope envBadCode envLoginBoom stWithTicket).2.1
    liveTicket (mfaFailedMsg "INVALID") rfl rfl
  exact ⟨h.1, h.2.2⟩

end Garmin

namespace Garmin

/-- C4 counterexample: after a failed `submit_mfa_code` attempt the
ticket is NOT cleared (the except clause of lines 357-366 never
touches `mfa_ticket_dict`), so a second call is not rejected with
the no-challenge-pending error — it retries the resumption. -/
theorem ticket_not_cleared_on_failure_cex :
    (submit_mfa_code envBadCode stWithTicket).1.mfaTicket = some liveTicket
    ∧ (submit_mfa_code envBadCode
        (submit_mfa_code envBadCode stWithTicket).1).2
      ≠ .error noTicketMsg := by
  constructor
  · rfl
  · intro h
    exact mfaFailedMsg_ne_noTicketMsg "INVALID" (Except.error.inj h)

/-- C4 amended: with no live ticket, `submit_mfa_code` fails with
the no-challenge-pending error and leaves the session unchanged; on
success it clears the ticket, authenticates, and a second call is
rejected with no-challenge-pending; on failure it latches the
failure flag and clears `authenticated` but RETAINS the ticket, so
the result is never the no-challenge-pending rejection and a second
call retries resumption instead of being rejected. -/
theorem submit_challenge_code_lifecycle (env env2 : MfaEnv) (st : ClientState) :
    (st.mfaTicket = none → submit_mfa_code env st = (st, .error noTicketMsg))
    ∧ (∀ t : MfaTicket, st.mfaTicket = some t → t.hasGarthClient = true →
        env.resume = .pair →
        (submit_mfa_code env st).1.mfaTicket = none
        ∧ (submit_mfa_code env st).1.authenticated = true
        ∧ (submit_mfa_code env st).2 = .ok true
        ∧ (submit_mfa_code env2 (submit_mfa_code env st).1).2
          = .error noTicketMsg)
    ∧ (∀ (t : MfaTicket) (m : String), st.mfaTicket = some t →
        env.resume = .raisesWith m →
        (submit_mfa_code env st).1.mfaTicket = some t
        ∧ (submit_mfa_code env st).1.authFailed = true
        ∧ (submit_mfa_code env st).1.authenticated = false
        ∧ (submit_mfa_code env st).2 ≠ .error noTicketMsg) := by
  refine ⟨?_, ?_, ?_⟩
  · intro h
    simp [submit_mfa_code, h]
  · intro t ht hcl hres
    refine ⟨?_, ?_, ?_, ?_⟩ <;>
      simp [submit_mfa_code, ht, hres, hcl]
  · intro t m ht hres
    refine ⟨?_, ?_, ?_, ?_⟩
    · simp [submit_mfa_code, ht, hres, mfaFailPath]
    · simp [submit_mfa_code, ht, hres, mfaFailPath]
    · simp [submit_mfa_code, ht, hres, mfaFailPath]
    · simp only [submit_mfa_code, ht, hres, mfaFailPath]
      intro h
      have h2 := Except.error.inj h
      by_cases h429 : strContains m "429" = true
      · rw [if_pos h429] at h2
        exact absurd h2 (by decide)
      · rw [if_neg h429] at h2
        exact mfaFailedMsg_ne_noTicketMsg m h2

/-- C4 witness: the lifecycle at concrete inputs — a successful
submission clears the ticket and a repeat is rejected; a failing
submission retains it. -/
theorem submit_challenge_code_lifecycle_witness :
    ((submit_mfa_code envGoodCode stWithTicket).1.mfaTicket = none
      ∧ (submit_mfa_code envGoodCode
          (submit_mfa_code envGoodCode stWithTicket).1).2 = .error noTicketMsg)
    ∧ (submit_mfa_code envBadCode stWithTicket).1.authFailed = true := by
  have hs := (submit_challenge_code_lifecycle envGoodCode envGoodCode
    stWithTicket).2.1 liveTicket rfl rfl rfl
  have hf := (submit_challenge_code_lifecycle envBadCode envGoodCode
    stWithTicket).2.2 liveTicket "INVALID" rfl rfl
  exact ⟨⟨hs.1, hs.2.2.2⟩, hf.2.1⟩

/-- C9: a challenge-submission failure whose underlying message
contains `429` is reported with the distinguished rate-limit error,
and every other submission failure is reported with the generic
`MFA failed:` wrapper, which can never equal the rate-limit
message. -/
theorem rate_limit_distinguished (env : MfaEnv) (st : ClientState)
    (t : MfaTicket) (m : String) (ht : st.mfaTicket = some t)
    (hr : env.resume = .raisesWith m) :
    (strContains m "429" = true →
      (submit_mfa_code env st).2 = .error rateLimitMsg)
    ∧ (strContains m "429" = false →
      (submit_mfa_code env st).2 = .error (mfaFailedMsg m)
      ∧ mfaFailedMsg m ≠ rateLimitMsg) := by
  constructor
  · intro h429
    simp [submit_mfa_code, ht, hr, mfaFailPath, h429]
  · intro h429
    refine ⟨?_, mfaFailedMsg_ne_rateLimitMsg m⟩
    simp [submit_mfa_code, ht, hr, mfaFailPath, h429]

/-- C9 witness: a 429 message is reported as the rate-limit error; an
invalid-code message is reported with the generic wrapper. -/
theorem rate_limit_distinguished_witness :
    (submit_mfa_code envRateLimited stWithTicket).2 = .error rateLimitMsg
    ∧ (submit_mfa_code envBadCode stWithTicket).2
      = .error (mfaFailedMsg "INVALID") := by
  constructor
  · exact (rate_limit_distinguished envRateLimited stWithTicket liveTicket
      "HTTP Error 429: Too Many Requests" rfl rfl).1 (by decide)
  · exact ((rate_limit_distinguished envBadCode stWithTicket liveTicket
      "INVALID" rfl rfl).2 (by decide)).1

end Garmin
